import Mathlib

/-!
Shallow embedding of `rpi_vidlooper/vidlooper.py` (the GPIO-controlled video
looper) and proofs about its selection state machine.

The embedding follows the source:
- `GPIO.output` writes are modelled as updates to a pin-level map
  `Nat → PinLevel`.
- The player supervisor's OS-level process set is modelled explicitly as a
  list of live pids (`PState.live`), so "at most one player process" is a
  real statement about spawned and killed processes, not just about the `_p`
  field.  `Popen` spawns a fresh pid; `os.killpg(..., SIGINT)` removes it.
- A `Popen` call that raises (player binary missing) is modelled by the
  `spawnOk` flag of `switch_vid`.
- Python exceptions that escape a method are returned as `Option Err`
  alongside the state, because side effects performed before the raise
  (GPIO writes, a killed process) persist.
-/

namespace Vidlooper

/-- A digital output level, as written by `GPIO.output` (HIGH / LOW). -/
inductive PinLevel
  | high
  | low
deriving DecidableEq, Repr

/-- Exceptions that `VidLooper` methods can raise:
`ValueError` from `tuple.index` (line 127), `IndexError` from
`self.videos[i]` (line 127), and the exception from a failed `Popen`
(line 139). -/
inductive Err
  | valueError
  | indexError
  | launchError
deriving DecidableEq, Repr

/-- A call issued to the player supervisor: stopping the process group of a
pid (`os.killpg`, line 112) or starting a new player process (`Popen`,
line 139). -/
inductive Ev
  | stop (pid : Nat)
  | start (pid : Nat)
deriving DecidableEq, Repr

/-- The immutable configuration of a `VidLooper` instance: the ordered
`gpio_pins` dict as a list of (input pin, optional output pin) pairs, the
assembled `self.videos` list, and the flags used by `switch_vid`. -/
structure Config where
  gpio_pins : List (Nat × Option Nat)
  videos : List String
  restart_on_press : Bool
  loop : Bool
deriving DecidableEq, Repr

/-- `VidLooper.in_pins` (lines 144-147): the tuple of input pins, in
configuration order. -/
def Config.in_pins (cfg : Config) : List Nat :=
  cfg.gpio_pins.map Prod.fst

/-- The mutable state: `_active_vid` (line 63), `_p` (line 66), plus the
observable world: the set of live player pids, a fresh-pid supply, and the
GPIO output levels. -/
structure PState where
  active_vid : Option String
  p : Option Nat
  live : List Nat
  next_pid : Nat
  outputs : Nat → PinLevel

/-- State at startup: no active video, no process handle, no live player
process; `start()` initialises every configured output pin LOW (line 162). -/
def initState : PState :=
  { active_vid := none, p := none, live := [], next_pid := 0,
    outputs := fun _ => PinLevel.low }

/-- `tuple.index`, as used by `self.in_pins.index(pin)` (line 127): the
first position of `x`, or `none` where Python raises `ValueError`. -/
def tupleIndex (l : List Nat) (x : Nat) : Option Nat :=
  match l with
  | [] => none
  | y :: t => if y = x then some 0 else (tupleIndex t x).map (· + 1)

/-- One iteration of the output-pin update loop of `switch_vid`
(lines 122-125): if the binding `b` has an output pin, write HIGH to it when
`b`'s input pin is the pressed pin, LOW otherwise. -/
def outStep (pin : Nat) (acc : Nat → PinLevel) (b : Nat × Option Nat) :
    Nat → PinLevel :=
  match b.2 with
  | some op =>
      fun q => if q = op then (if b.1 = pin then PinLevel.high else PinLevel.low)
               else acc q
  | none => acc

/-- The output-pin update loop of `switch_vid` (lines 122-125), over the
bindings in configuration order. -/
def setOutputs (bs : List (Nat × Option Nat)) (pin : Nat)
    (out : Nat → PinLevel) : Nat → PinLevel :=
  bs.foldl (outStep pin) out

/-- `VidLooper._kill_process` (lines 109-113): if `_p` is set, signal its
process group with SIGINT (removing it from the live set) and clear `_p`;
otherwise do nothing. Returns the supervisor calls issued. -/
def kill_process (s : PState) : PState × List Ev :=
  match s.p with
  | some pid => ({ s with p := none, live := s.live.erase pid }, [Ev.stop pid])
  | none => (s, [])

/-- Result of one `switch_vid` call: the post state, the exception that
escaped (if any), and the supervisor calls issued, in order. -/
structure SwRes where
  st : PState
  err : Option Err
  evs : List Ev

/-- `VidLooper.switch_vid` (lines 115-142), one sequential execution of the
critical section. `spawnOk` tells whether the `Popen` call succeeds; when it
does, the new player gets the fresh pid `next_pid`. The GPIO output writes
happen first, then the video lookup (which can raise), then the
kill-previous / start-new branch guarded by
`filename != self._active_vid or self.restart_on_press`. -/
def switch_vid (cfg : Config) (spawnOk : Bool) (pin : Nat) (s : PState) : SwRes :=
  let s1 : PState := { s with outputs := setOutputs cfg.gpio_pins pin s.outputs }
  match tupleIndex cfg.in_pins pin with
  | none => ⟨s1, some Err.valueError, []⟩
  | some i =>
    match cfg.videos[i]? with
    | none => ⟨s1, some Err.indexError, []⟩
    | some filename =>
      if some filename ≠ s1.active_vid ∨ cfg.restart_on_press = true then
        let k := kill_process s1
        if spawnOk then
          let pid := k.1.next_pid
          ⟨{ k.1 with p := some pid, live := pid :: k.1.live,
                      next_pid := pid + 1, active_vid := some filename },
           none, k.2 ++ [Ev.start pid]⟩
        else
          ⟨k.1, some Err.launchError, k.2⟩
      else
        ⟨s1, none, []⟩

/-- Fold a sequence of edge events (pressed pin, whether the launch would
succeed) through `switch_vid`, keeping the state across raised exceptions
just as the Python process does. -/
def runSeq (cfg : Config) (evs : List (Nat × Bool)) (s : PState) : PState :=
  evs.foldl (fun st e => (switch_vid cfg e.2 e.1 st).st) s

/-- One iteration of the LED-reset loop of the non-looping poll
(lines 197-199): write LOW to the binding's output pin, if it has one. -/
def lowStep (acc : Nat → PinLevel) (b : Nat × Option Nat) : Nat → PinLevel :=
  match b.2 with
  | some op => fun q => if q = op then PinLevel.low else acc q
  | none => acc

/-- The LED-reset loop of the non-looping poll (lines 197-199): write LOW to
every configured output pin, in order. -/
def resetLeds (bs : List (Nat × Option Nat)) (out : Nat → PinLevel) : Nat → PinLevel :=
  bs.foldl lowStep out

/-- One iteration body of the `start()` run loop (lines 187-201), executed
with no interleaved `switch_vid` callback. When looping is enabled the body
does nothing. Otherwise (lines 189-201): if `_p` is set, `communicate()`
waits for and reaps the process (it leaves the live set — a natural exit,
since with `loop=False` the player exits after one playback); with no
interleaving `_p` is unchanged and its pid still matches the saved `pid`, so
the body resets the LEDs to LOW, clears `_active_vid` and clears `_p`. If
`_p` is `None` the saved `pid` stays `-1` and both `if self._p` checks fail. -/
def pollTick (cfg : Config) (s : PState) : PState :=
  if cfg.loop then s
  else
    match s.p with
    | none => s
    | some pid =>
        { s with live := s.live.erase pid,
                 active_vid := none,
                 p := none,
                 outputs := resetLeds cfg.gpio_pins s.outputs }

/-! ## Constructor (`VidLooper.__init__`, lines 68-107)

File-system access (`os.path.exists`, `os.listdir`) is an external
collaborator: it is abstracted as the predicate `fs` and the already
filtered, sorted listing `discovered` of `video_dir`. Everything else
follows the source, in source order. Crucially, line 94 reads
`assert len(videos) <= len(self.gpio_pins)` — `videos` is the constructor
ARGUMENT, not the assembled `self.videos`: `len(None)` raises `TypeError`,
and `len(())` is `0`. -/

/-- `VidLooper._GPIO_PIN_DEFAULT` (lines 51-56). -/
def GPIO_PIN_DEFAULT : List (Nat × Option Nat) :=
  [(26, some 21), (19, some 20), (13, some 16), (6, some 12)]

/-- Ways `__init__` can fail: `FileNotFoundError` (line 84), the
no-videos-found `Exception` (line 90), the pin-count `AssertionError`
(line 94) raised as `TypeError` when `len(videos)` is `len(None)`, and the
audio-choice `AssertionError` (line 99). -/
inductive InitErr
  | fileNotFound
  | noVideosFound
  | assertPinCount
  | typeErrorNoneLen
  | assertAudio
deriving DecidableEq, Repr

/-- `VidLooper.__init__`. `videos = none` models `videos=None` (the Python
default); `videos = some []` models the empty tuple `()` passed by the CLI
(`main`, line 256); both are falsy so they take the directory-discovery
branch. -/
def vidLooperInit (fs : String → Bool) (audio : String)
    (restart_on_press loop : Bool)
    (videos : Option (List String)) (discovered : List String)
    (gpio_pins : Option (List (Nat × Option Nat))) : Except InitErr Config :=
  let pins := gpio_pins.getD GPIO_PIN_DEFAULT
  let selfVideosE : Except InitErr (List String) :=
    match videos with
    | some vs =>
        if vs.isEmpty then
          if discovered.isEmpty then Except.error InitErr.noVideosFound
          else Except.ok discovered
        else
          if vs.all fs then Except.ok vs else Except.error InitErr.fileNotFound
    | none =>
        if discovered.isEmpty then Except.error InitErr.noVideosFound
        else Except.ok discovered
  match selfVideosE with
  | Except.error e => Except.error e
  | Except.ok selfVideos =>
    match videos with
    | none => Except.error InitErr.typeErrorNoneLen
    | some vs =>
      if vs.length ≤ pins.length then
        if audio = "hdmi" ∨ audio = "local" ∨ audio = "both" then
          Except.ok ⟨pins, selfVideos, restart_on_press, loop⟩
        else Except.error InitErr.assertAudio
      else Except.error InitErr.assertPinCount

/-! ## Teardown control flow (`start`, lines 186-204, and `__del__`,
lines 206-219)

The run loop is `try: while True: ... finally: self.__del__()`. The
`finally` block runs on every way the loop terminates — operator interrupt
(`KeyboardInterrupt`) or an unexpected error — and explicitly calls
`__del__`. `__del__` is, additionally, the instance's finalizer: after
`VidLooper(**vars(args)).start()` (line 293) returns or raises, the
interpreter destroys the instance and invokes `__del__` once more, so the
teardown body executes again at garbage collection. -/

/-- Events of a whole program run, for counting teardown executions.
`tputCnorm`, `gpioCleanup`, `killPlayer`, `killSplash` are the four steps of
`__del__` (lines 206-219), in source order. -/
inductive RunEv
  | loopIter
  | tputCnorm
  | gpioCleanup
  | killPlayer
  | killSplash
deriving DecidableEq, Repr

/-- How the infinite `while True` loop terminates: there is no normal exit,
only a propagating exception — an operator interrupt or an unexpected
error. -/
inductive ExitPath
  | interrupt
  | error
deriving DecidableEq, Repr

/-- The body of `__del__` (lines 206-219): restore the cursor, clean up the
GPIO pins, kill any active video process, kill any splash process — in that
order. -/
def delEvents : List RunEv :=
  [RunEv.tputCnorm, RunEv.gpioCleanup, RunEv.killPlayer, RunEv.killSplash]

/-- `try`/`finally` semantics: the handler's events always follow the
body's, whether or not an exception is propagating out of the body. -/
def tryFinallyEvents (body : List RunEv × Bool) (handler : List RunEv) :
    List RunEv × Bool :=
  (body.1 ++ handler, body.2)

/-- The `while True` loop (lines 187-201): `iters` completed iterations,
then termination by the exception of exit path `e` (the loop itself cannot
exit normally). The `Bool` records that an exception is propagating. -/
def loopBody (_ : ExitPath) (iters : Nat) : List RunEv × Bool :=
  (List.replicate iters RunEv.loopIter, true)

/-- `start()`'s run loop with its `finally` block (lines 186-204). -/
def startRun (e : ExitPath) (iters : Nat) : List RunEv × Bool :=
  tryFinallyEvents (loopBody e iters) delEvents

/-- Modelled from Python semantics: the whole run `VidLooper(...).start()`
(line 293). After `start` returns or raises, the interpreter destroys the
instance and invokes its `__del__` finalizer, appending the teardown body a
second time. -/
def fullRun (e : ExitPath) (iters : Nat) : List RunEv :=
  (startRun e iters).1 ++ delEvents

/-- Number of executions of the teardown sequence in a run, counted by its
`GPIO.cleanup` step (line 212), which `__del__` performs exactly once per
execution. -/
def teardownCount (t : List RunEv) : Nat :=
  t.count RunEv.gpioCleanup

/-! ## Lock discipline (`_mutex`, line 60)

Which accesses of the PlaybackState fields `_p` / `_active_vid` happen
inside a `with self._mutex` block is a syntactic fact about the source; the
table below lists every access site, by line. `switch_vid`'s body
(lines 120-142, including its call into `_kill_process`) is entirely inside
the `with self._mutex:` block opened at line 120. The poll loop in `start`
(lines 189-201) and the teardown `__del__` (line 215, via `_kill_process`)
acquire no lock. -/

/-- One source location that reads or writes `_p` or `_active_vid`. -/
structure AccessSite where
  line : Nat
  actor : String
  field : String
  isWrite : Bool
  underMutex : Bool
deriving DecidableEq, Repr

/-- Every access of `_p` / `_active_vid` in `vidlooper.py`, with whether it
executes while holding `_mutex`. -/
def accessSites : List AccessSite :=
  [⟨128, "switch_vid", "_active_vid", false, true⟩,
   ⟨111, "switch_vid", "_p", false, true⟩,
   ⟨113, "switch_vid", "_p", true, true⟩,
   ⟨139, "switch_vid", "_p", true, true⟩,
   ⟨142, "switch_vid", "_active_vid", true, true⟩,
   ⟨191, "poll", "_p", false, false⟩,
   ⟨192, "poll", "_p", false, false⟩,
   ⟨194, "poll", "_p", false, false⟩,
   ⟨200, "poll", "_active_vid", true, false⟩,
   ⟨201, "poll", "_p", true, false⟩,
   ⟨111, "del", "_p", false, false⟩,
   ⟨113, "del", "_p", true, false⟩]

/-! ## Helper lemmas -/

theorem setOutputs_nil (pin : Nat) (out : Nat → PinLevel) :
    setOutputs [] pin out = out := rfl

theorem setOutputs_cons (b : Nat × Option Nat) (t : List (Nat × Option Nat))
    (pin : Nat) (out : Nat → PinLevel) :
    setOutputs (b :: t) pin out = setOutputs t pin (outStep pin out b) := rfl

/-- A pin that is nobody's output pin is untouched by the update loop. -/
theorem setOutputs_not_out {pin o : Nat} :
    ∀ (bs : List (Nat × Option Nat)) (out : Nat → PinLevel),
      (∀ b ∈ bs, b.2 ≠ some o) → setOutputs bs pin out o = out o := by
  intro bs
  induction bs with
  | nil => intro out _; rfl
  | cons b t ih =>
      intro out h
      rw [setOutputs_cons,
          ih _ (fun b' hb' => h b' (List.mem_cons_of_mem _ hb'))]
      have hb : b.2 ≠ some o := h b (List.mem_cons_self _ _)
      cases hop : b.2 with
      | none => simp [outStep, hop]
      | some op =>
          have hne : o ≠ op := by
            intro he
            exact hb (by rw [hop, he])
          simp [outStep, hop, hne]

/-- If `o` is the output pin of the binding for input `q`, and no other
binding shares `o` as output, then the update loop leaves `o` HIGH exactly
when `q` is the pressed pin. -/
theorem setOutputs_out {pin q o : Nat} :
    ∀ (bs : List (Nat × Option Nat)) (out : Nat → PinLevel),
      (q, some o) ∈ bs →
      (∀ b ∈ bs, b.2 = some o → b.1 = q) →
      setOutputs bs pin out o = if q = pin then PinLevel.high else PinLevel.low := by
  intro bs
  induction bs with
  | nil => intro out hmem _; cases hmem
  | cons b t ih =>
      intro out hmem hinj
      rw [setOutputs_cons]
      by_cases hex : ∃ b' ∈ t, b'.2 = some o
      · obtain ⟨b', hb't, hb'o⟩ := hex
        have hb'q : b'.1 = q := hinj b' (List.mem_cons_of_mem _ hb't) hb'o
        have hmem' : (q, some o) ∈ t := by
          obtain ⟨x, y⟩ := b'
          simp only at hb'q hb'o
          rw [hb'q, hb'o] at hb't
          exact hb't
        exact ih _ hmem' (fun b'' hb'' => hinj b'' (List.mem_cons_of_mem _ hb''))
      · have hnot : ∀ b' ∈ t, b'.2 ≠ some o := fun b' hb' hco => hex ⟨b', hb', hco⟩
        rw [setOutputs_not_out _ _ hnot]
        rcases List.mem_cons.mp hmem with heq | hmt
        · rw [← heq]
          simp [outStep]
        · exact absurd rfl (hnot _ hmt)

/-- When the pressed pin is not any binding's input pin, the update loop
writes LOW to every configured output pin. -/
theorem setOutputs_unbound {pin o : Nat} :
    ∀ (bs : List (Nat × Option Nat)) (out : Nat → PinLevel),
      (∀ b ∈ bs, b.1 ≠ pin) →
      (∃ b ∈ bs, b.2 = some o) →
      setOutputs bs pin out o = PinLevel.low := by
  intro bs
  induction bs with
  | nil => intro out _ hex; simp at hex
  | cons b t ih =>
      intro out hpin hex
      rw [setOutputs_cons]
      by_cases hex' : ∃ b' ∈ t, b'.2 = some o
      · exact ih _ (fun b' hb' => hpin b' (List.mem_cons_of_mem _ hb')) hex'
      · have hnot : ∀ b' ∈ t, b'.2 ≠ some o := fun b' hb' hco => hex' ⟨b', hb', hco⟩
        obtain ⟨b', hb'mem, hb'o⟩ := hex
        rcases List.mem_cons.mp hb'mem with heq | hmt
        · rw [setOutputs_not_out _ _ hnot]
          have hbpin : b.1 ≠ pin := hpin b (List.mem_cons_self _ _)
          obtain ⟨bi, bo⟩ := b
          rw [heq] at hb'o
          simp only at hb'o hbpin
          subst hb'o
          simp [outStep, hbpin]
        · exact absurd hb'o (hnot _ hmt)

theorem resetLeds_cons (b : Nat × Option Nat) (t : List (Nat × Option Nat))
    (out : Nat → PinLevel) :
    resetLeds (b :: t) out = resetLeds t (lowStep out b) := rfl

/-- A pin that is nobody's output pin is untouched by the LED-reset loop. -/
theorem resetLeds_not_out {o : Nat} :
    ∀ (bs : List (Nat × Option Nat)) (out : Nat → PinLevel),
      (∀ b ∈ bs, b.2 ≠ some o) → resetLeds bs out o = out o := by
  intro bs
  induction bs with
  | nil => intro out _; rfl
  | cons b t ih =>
      intro out h
      rw [resetLeds_cons,
          ih _ (fun b' hb' => h b' (List.mem_cons_of_mem _ hb'))]
      have hb : b.2 ≠ some o := h b (List.mem_cons_self _ _)
      cases hop : b.2 with
      | none => simp [lowStep, hop]
      | some op =>
          have hne : o ≠ op := by
            intro he
            exact hb (by rw [hop, he])
          simp [lowStep, hop, hne]

/-- The LED-reset loop writes LOW to every configured output pin. -/
theorem resetLeds_low {o : Nat} :
    ∀ (bs : List (Nat × Option Nat)) (out : Nat → PinLevel),
      (∃ b ∈ bs, b.2 = some o) →
      resetLeds bs out o = PinLevel.low := by
  intro bs
  induction bs with
  | nil => intro out hex; simp at hex
  | cons b t ih =>
      intro out hex
      rw [resetLeds_cons]
      by_cases hex' : ∃ b' ∈ t, b'.2 = some o
      · exact ih _ hex'
      · have hnot : ∀ b' ∈ t, b'.2 ≠ some o := fun b' hb' hco => hex' ⟨b', hb', hco⟩
        obtain ⟨b', hb'mem, hb'o⟩ := hex
        rcases List.mem_cons.mp hb'mem with heq | hmt
        · rw [resetLeds_not_out _ _ hnot]
          obtain ⟨bi, bo⟩ := b
          rw [heq] at hb'o
          simp only at hb'o
          subst hb'o
          simp [lowStep]
        · exact absurd hb'o (hnot _ hmt)

/-- `tupleIndex` succeeds only on members of the list. -/
theorem tupleIndex_mem {x : Nat} :
    ∀ {l : List Nat} {i : Nat}, tupleIndex l x = some i → x ∈ l := by
  intro l
  induction l with
  | nil => intro i h; cases h
  | cons y t ih =>
      intro i h
      by_cases hyx : y = x
      · exact hyx ▸ List.mem_cons_self _ _
      · rw [tupleIndex, if_neg hyx] at h
        cases hti : tupleIndex t x with
        | none => rw [hti] at h; cases h
        | some j => exact List.mem_cons_of_mem _ (ih hti)

/-- The single-live-player invariant: the set of live player processes is
exactly what the `_p` handle points at. -/
def Inv (s : PState) : Prop :=
  s.live = s.p.toList

theorem Inv_initState : Inv initState := rfl

/-- Equation: an unbound pin makes `switch_vid` raise `ValueError` after the
GPIO writes, touching nothing else. -/
theorem switch_vid_eq_unbound {cfg : Config} {spawnOk : Bool} {pin : Nat}
    {s : PState} (h : tupleIndex cfg.in_pins pin = none) :
    switch_vid cfg spawnOk pin s =
      ⟨{ s with outputs := setOutputs cfg.gpio_pins pin s.outputs },
       some Err.valueError, []⟩ := by
  simp [switch_vid, h]

/-- Equation: a bound pin whose position has no video makes `switch_vid`
raise `IndexError` after the GPIO writes, touching nothing else. -/
theorem switch_vid_eq_novideo {cfg : Config} {spawnOk : Bool} {pin i : Nat}
    {s : PState} (h1 : tupleIndex cfg.in_pins pin = some i)
    (h2 : cfg.videos[i]? = none) :
    switch_vid cfg spawnOk pin s =
      ⟨{ s with outputs := setOutputs cfg.gpio_pins pin s.outputs },
       some Err.indexError, []⟩ := by
  simp [switch_vid, h1, h2]

/-- Equation: pressing the pin of the already-active video with
`restart_on_press` off only performs the GPIO writes. -/
theorem switch_vid_eq_noop {cfg : Config} {spawnOk : Bool} {pin i : Nat}
    {f : String} {s : PState} (h1 : tupleIndex cfg.in_pins pin = some i)
    (h2 : cfg.videos[i]? = some f) (h3 : s.active_vid = some f)
    (h4 : cfg.restart_on_press = false) :
    switch_vid cfg spawnOk pin s =
      ⟨{ s with outputs := setOutputs cfg.gpio_pins pin s.outputs },
       none, []⟩ := by
  simp [switch_vid, h1, h2, h3, h4]

/-- Equation: a switch that reaches the kill/start branch and whose `Popen`
succeeds: the previous player (if any) is stopped and cleared first, then
the fresh pid is started, stored and recorded as active. -/
theorem switch_vid_eq_go {cfg : Config} {pin i : Nat} {f : String} {s : PState}
    (h1 : tupleIndex cfg.in_pins pin = some i)
    (h2 : cfg.videos[i]? = some f)
    (h3 : some f ≠ s.active_vid ∨ cfg.restart_on_press = true) :
    switch_vid cfg true pin s =
      (let k := kill_process { s with outputs := setOutputs cfg.gpio_pins pin s.outputs }
       ⟨{ k.1 with p := some k.1.next_pid, live := k.1.next_pid :: k.1.live,
                   next_pid := k.1.next_pid + 1, active_vid := some f },
        none, k.2 ++ [Ev.start k.1.next_pid]⟩) := by
  simp [switch_vid, h1, h2, h3]

/-- Equation: a switch that reaches the kill/start branch and whose `Popen`
raises: the previous player (if any) is already stopped and `_p` cleared,
`_active_vid` is left as it was, and the launch error escapes. -/
theorem switch_vid_eq_launchFail {cfg : Config} {pin i : Nat} {f : String}
    {s : PState} (h1 : tupleIndex cfg.in_pins pin = some i)
    (h2 : cfg.videos[i]? = some f)
    (h3 : some f ≠ s.active_vid ∨ cfg.restart_on_press = true) :
    switch_vid cfg false pin s =
      (let k := kill_process { s with outputs := setOutputs cfg.gpio_pins pin s.outputs }
       ⟨k.1, some Err.launchError, k.2⟩) := by
  simp [switch_vid, h1, h2, h3]

/-- After `_kill_process` the handle is always clear. -/
theorem kill_process_p (s : PState) : (kill_process s).1.p = none := by
  cases hp : s.p <;> simp [kill_process, hp]

/-- `switch_vid` preserves the single-live-player invariant on every path,
including the paths that raise: the previous player is always signalled and
`_p` cleared (inside the same locked section) before a new one is spawned. -/
theorem switch_vid_Inv {cfg : Config} {spawnOk : Bool} {pin : Nat} {s : PState}
    (h : Inv s) : Inv (switch_vid cfg spawnOk pin s).st := by
  have hkill : ∀ s' : PState, Inv s' → Inv (kill_process s').1 := by
    intro s' h'
    cases hp : s'.p with
    | none => simpa [kill_process, hp] using h'
    | some pid =>
        have hlive : s'.live = [pid] := by simpa [Inv, hp] using h'
        simp [kill_process, hp, hlive, Inv, List.erase]
  cases hti : tupleIndex cfg.in_pins pin with
  | none => rw [switch_vid_eq_unbound hti]; exact h
  | some i =>
    cases hg : cfg.videos[i]? with
    | none => rw [switch_vid_eq_novideo hti hg]; exact h
    | some f =>
      by_cases hc : some f ≠ s.active_vid ∨ cfg.restart_on_press = true
      · have hk := hkill { s with outputs := setOutputs cfg.gpio_pins pin s.outputs } h
        cases spawnOk with
        | true =>
            rw [switch_vid_eq_go hti hg hc]
            have : (kill_process { s with outputs := setOutputs cfg.gpio_pins pin s.outputs }).1.live = [] := by
              rw [Inv, kill_process_p] at hk
              simpa using hk
            simp [Inv, this]
        | false =>
            rw [switch_vid_eq_launchFail hti hg hc]
            exact hk
      · push_neg at hc
        obtain ⟨hc1, hc2⟩ := hc
        have hc1' : s.active_vid = some f := hc1.symm
        have hc2' : cfg.restart_on_press = false := by
          cases hrp : cfg.restart_on_press with
          | true => exact absurd hrp hc2
          | false => rfl
        rw [switch_vid_eq_noop hti hg hc1' hc2']
        exact h

/-- The invariant holds after any event sequence from the initial state. -/
theorem runSeq_Inv (cfg : Config) (evs : List (Nat × Bool)) :
    ∀ s : PState, Inv s → Inv (runSeq cfg evs s) := by
  induction evs with
  | nil => intro s h; exact h
  | cons e t ih =>
      intro s h
      exact ih _ (switch_vid_Inv h)

/-- `_kill_process` does not touch the GPIO outputs. -/
theorem kill_process_outputs (s : PState) :
    (kill_process s).1.outputs = s.outputs := by
  cases hp : s.p <;> simp [kill_process, hp]

/-- `_kill_process` does not touch `_active_vid`. -/
theorem kill_process_active (s : PState) :
    (kill_process s).1.active_vid = s.active_vid := by
  cases hp : s.p <;> simp [kill_process, hp]

/-- `tupleIndex` fails exactly on non-members. -/
theorem tupleIndex_eq_none {x : Nat} :
    ∀ {l : List Nat}, x ∉ l → tupleIndex l x = none := by
  intro l
  induction l with
  | nil => intro _; rfl
  | cons y t ih =>
      intro h
      have hyx : y ≠ x := fun he => h (he ▸ List.mem_cons_self _ _)
      have hxt : x ∉ t := fun hm => h (List.mem_cons_of_mem _ hm)
      rw [tupleIndex, if_neg hyx, ih hxt]
      rfl

/-- On every path — the two raising ones included — `switch_vid` leaves the
GPIO outputs as written by the initial update loop (lines 122-125). -/
theorem switch_vid_outputs (cfg : Config) (spawnOk : Bool) (pin : Nat)
    (s : PState) :
    (switch_vid cfg spawnOk pin s).st.outputs =
      setOutputs cfg.gpio_pins pin s.outputs := by
  cases hti : tupleIndex cfg.in_pins pin with
  | none => rw [switch_vid_eq_unbound hti]
  | some i =>
    cases hg : cfg.videos[i]? with
    | none => rw [switch_vid_eq_novideo hti hg]
    | some f =>
      by_cases hc : some f ≠ s.active_vid ∨ cfg.restart_on_press = true
      · cases spawnOk with
        | true =>
            rw [switch_vid_eq_go hti hg hc]
            exact kill_process_outputs _
        | false =>
            rw [switch_vid_eq_launchFail hti hg hc]
            exact kill_process_outputs _
      · push_neg at hc
        obtain ⟨hc1, hc2⟩ := hc
        have hc2' : cfg.restart_on_press = false := by
          cases hrp : cfg.restart_on_press with
          | true => exact absurd hrp hc2
          | false => rfl
        rw [switch_vid_eq_noop hti hg hc1.symm hc2']

/-- Under output-pin injectivity, the update loop asserts exactly the output
pin bound to the pressed pin: a configured output is HIGH iff its input pin
is the pressed one. -/
theorem setOutputs_exclusive {bs : List (Nat × Option Nat)} {pin : Nat}
    (out : Nat → PinLevel)
    (hinj : ∀ b1 ∈ bs, ∀ b2 ∈ bs, b1.2 ≠ none → b1.2 = b2.2 → b1.1 = b2.1) :
    ∀ q o : Nat, (q, some o) ∈ bs →
      (setOutputs bs pin out o = PinLevel.high ↔ q = pin) := by
  intro q o hmem
  have hinj' : ∀ b ∈ bs, b.2 = some o → b.1 = q := by
    intro b hb hbo
    exact hinj b hb (q, some o) hmem (by rw [hbo]; exact fun he => Option.noConfusion he)
      (by rw [hbo])
  rw [setOutputs_out _ _ hmem hinj']
  by_cases hq : q = pin <;> simp [hq]

/-! ## Claims -/

/-- C1: after any sequence of `switch_vid` transitions from startup — with
each launch free to succeed or fail — at most one player process is live:
a new player is spawned only after any previous handle has been stopped and
cleared inside the same critical section. -/
theorem claim_C1 (cfg : Config) (evs : List (Nat × Bool)) :
    (runSeq cfg evs initState).live.length ≤ 1 := by
  have h := runSeq_Inv cfg evs initState Inv_initState
  rw [Inv] at h
  rw [h]
  cases (runSeq cfg evs initState).p <;> simp [Option.toList]

/-- C2: after every completed (non-raising) `switch_vid` transition for pin
`pin`, in any configuration where no two input pins share an output pin, a
configured output pin is HIGH exactly when its input pin is the pressed
pin: the output paired with `pin` is asserted and every other configured
output is deasserted. -/
theorem claim_C2 (cfg : Config) (spawnOk : Bool) (pin : Nat) (s : PState)
    (hinj : ∀ b1 ∈ cfg.gpio_pins, ∀ b2 ∈ cfg.gpio_pins,
      b1.2 ≠ none → b1.2 = b2.2 → b1.1 = b2.1)
    (_hdone : (switch_vid cfg spawnOk pin s).err = none) :
    ∀ q o : Nat, (q, some o) ∈ cfg.gpio_pins →
      ((switch_vid cfg spawnOk pin s).st.outputs o = PinLevel.high ↔ q = pin) := by
  intro q o hmem
  rw [switch_vid_outputs]
  exact setOutputs_exclusive s.outputs hinj q o hmem

/-- C2 witness: configuration `26:21, 19:20` with videos `a.mp4`, `b.mp4`;
pressing pin 26 completes and leaves output 21 asserted and output 20
deasserted. -/
theorem claim_C2_witness :
    ((switch_vid ⟨[(26, some 21), (19, some 20)], ["a.mp4", "b.mp4"], false, true⟩
        true 26 initState).st.outputs 21 = PinLevel.high ↔ (26 : Nat) = 26) ∧
    ((switch_vid ⟨[(26, some 21), (19, some 20)], ["a.mp4", "b.mp4"], false, true⟩
        true 26 initState).st.outputs 20 = PinLevel.high ↔ (19 : Nat) = 26) :=
  ⟨claim_C2 _ true 26 initState (by decide) (by decide) 26 21 (by decide),
   claim_C2 _ true 26 initState (by decide) (by decide) 19 20 (by decide)⟩

/-- C3: the `len(videos) <= len(self.gpio_pins)` check of `__init__`
(line 94) reads the constructor ARGUMENT `videos`, not the assembled video
list. With the CLI's empty-tuple default and a discovered directory listing
of two videos but only one configured pin, construction succeeds with more
videos than pins; and with the Python default `videos=None`, `len(None)`
raises `TypeError` unconditionally instead of a configuration check. -/
theorem claim_C3 :
    (vidLooperInit (fun _ => true) "hdmi" false true (some []) ["a.mp4", "b.mp4"]
        (some [(26, some 21)]) =
      Except.ok ⟨[(26, some 21)], ["a.mp4", "b.mp4"], false, true⟩) ∧
    (⟨[(26, some 21)], ["a.mp4", "b.mp4"], false, true⟩ : Config).gpio_pins.length <
      (⟨[(26, some 21)], ["a.mp4", "b.mp4"], false, true⟩ : Config).videos.length ∧
    vidLooperInit (fun _ => true) "hdmi" false true none ["a.mp4"]
        (some [(26, some 21)]) =
      Except.error InitErr.typeErrorNoneLen := by
  exact ⟨rfl, by decide, rfl⟩

/-- C4 fails: delivering an edge event for a pin absent from the input-pin
mapping is NOT a silent no-op. With one binding `26:21`, video `a.mp4`
active and output 21 HIGH, `switch_vid 99` raises `ValueError` (from
`tuple.index`, line 127) and has already deasserted output 21. -/
theorem claim_C4_counterexample :
    (switch_vid ⟨[(26, some 21)], ["a.mp4"], false, true⟩ true 99
        { active_vid := some "a.mp4", p := some 0, live := [0], next_pid := 1,
          outputs := fun q => if q = 21 then PinLevel.high else PinLevel.low }).err =
      some Err.valueError ∧
    (switch_vid ⟨[(26, some 21)], ["a.mp4"], false, true⟩ true 99
        { active_vid := some "a.mp4", p := some 0, live := [0], next_pid := 1,
          outputs := fun q => if q = 21 then PinLevel.high else PinLevel.low }).st.outputs 21 =
      PinLevel.low ∧
    (if (21 : Nat) = 21 then PinLevel.high else PinLevel.low) = PinLevel.high := by
  exact ⟨by decide, by decide, by decide⟩

/-- C4 amended: for a pin not in the input-pin mapping, `switch_vid` first
deasserts every configured indicator output (the update loop finds no
matching input pin), then raises `ValueError` from the `tuple.index`
lookup; PlaybackState (`_active_vid`, `_p`, the live process set) is
unchanged and no supervisor call is issued. -/
theorem claim_C4_amended (cfg : Config) (spawnOk : Bool) (pin : Nat)
    (s : PState) (h : pin ∉ cfg.in_pins) :
    (switch_vid cfg spawnOk pin s).err = some Err.valueError ∧
    (switch_vid cfg spawnOk pin s).st.active_vid = s.active_vid ∧
    (switch_vid cfg spawnOk pin s).st.p = s.p ∧
    (switch_vid cfg spawnOk pin s).st.live = s.live ∧
    (switch_vid cfg spawnOk pin s).evs = [] ∧
    ∀ q o : Nat, (q, some o) ∈ cfg.gpio_pins →
      (switch_vid cfg spawnOk pin s).st.outputs o = PinLevel.low := by
  have hti : tupleIndex cfg.in_pins pin = none := tupleIndex_eq_none h
  rw [switch_vid_eq_unbound hti]
  refine ⟨rfl, rfl, rfl, rfl, rfl, ?_⟩
  intro q o hmem
  have hpin : ∀ b ∈ cfg.gpio_pins, b.1 ≠ pin := by
    intro b hb he
    exact h (he ▸ List.mem_map_of_mem Prod.fst hb)
  exact setOutputs_unbound _ _ hpin ⟨(q, some o), hmem, rfl⟩

/-- C4 amended witness: pressing unbound pin 99 on the `26:21`
configuration raises `ValueError` and deasserts output 21. -/
theorem claim_C4_amended_witness :
    (switch_vid ⟨[(26, some 21)], ["a.mp4"], false, true⟩ true 99 initState).err =
      some Err.valueError ∧
    (switch_vid ⟨[(26, some 21)], ["a.mp4"], false, true⟩ true 99 initState).st.outputs 21 =
      PinLevel.low :=
  ⟨(claim_C4_amended _ true 99 initState (by decide)).1,
   (claim_C4_amended _ true 99 initState (by decide)).2.2.2.2.2 26 21 (by decide)⟩

/-- C5 fails: when the player launch raises, the previously stored process
handle does NOT keep its old value. With process 5 active on `a.mp4`,
switching to `b.mp4` with a failing `Popen` propagates the launch error,
but `_p` has been cleared by `_kill_process` (line 130, before the `Popen`
of line 139), so it is `None` rather than the prior handle 5. -/
theorem claim_C5_counterexample :
    (switch_vid ⟨[(26, some 21), (19, some 20)], ["a.mp4", "b.mp4"], false, true⟩
        false 19
        { active_vid := some "a.mp4", p := some 5, live := [5], next_pid := 6,
          outputs := fun q => if q = 21 then PinLevel.high else PinLevel.low }).err =
      some Err.launchError ∧
    (switch_vid ⟨[(26, some 21), (19, some 20)], ["a.mp4", "b.mp4"], false, true⟩
        false 19
        { active_vid := some "a.mp4", p := some 5, live := [5], next_pid := 6,
          outputs := fun q => if q = 21 then PinLevel.high else PinLevel.low }).st.p ≠
      some 5 := by
  exact ⟨by decide, by decide⟩

/-- C5 amended: if the launch raises on a transition that reaches the
kill/start branch, the error propagates to the caller, `_active_vid` keeps
its prior value, and `_p` is `None` — the previous player was already
stopped and the handle cleared before the failing launch, so no stale
handle remains (but `_p` does not retain its pre-transition value). -/
theorem claim_C5_amended (cfg : Config) (pin i : Nat) (f : String) (s : PState)
    (h1 : tupleIndex cfg.in_pins pin = some i)
    (h2 : cfg.videos[i]? = some f)
    (h3 : some f ≠ s.active_vid ∨ cfg.restart_on_press = true) :
    (switch_vid cfg false pin s).err = some Err.launchError ∧
    (switch_vid cfg false pin s).st.active_vid = s.active_vid ∧
    (switch_vid cfg false pin s).st.p = none := by
  rw [switch_vid_eq_launchFail h1 h2 h3]
  exact ⟨rfl, kill_process_active _, kill_process_p _⟩

/-- C5 amended witness: the failing switch to `b.mp4` from the
counterexample state keeps `_active_vid = a.mp4` and leaves `_p = None`. -/
theorem claim_C5_amended_witness :
    (switch_vid ⟨[(26, some 21), (19, some 20)], ["a.mp4", "b.mp4"], false, true⟩
        false 19
        { active_vid := some "a.mp4", p := some 5, live := [5], next_pid := 6,
          outputs := fun q => if q = 21 then PinLevel.high else PinLevel.low }).err =
      some Err.launchError ∧
    (switch_vid ⟨[(26, some 21), (19, some 20)], ["a.mp4", "b.mp4"], false, true⟩
        false 19
        { active_vid := some "a.mp4", p := some 5, live := [5], next_pid := 6,
          outputs := fun q => if q = 21 then PinLevel.high else PinLevel.low }).st.active_vid =
      some "a.mp4" ∧
    (switch_vid ⟨[(26, some 21), (19, some 20)], ["a.mp4", "b.mp4"], false, true⟩
        false 19
        { active_vid := some "a.mp4", p := some 5, live := [5], next_pid := 6,
          outputs := fun q => if q = 21 then PinLevel.high else PinLevel.low }).st.p =
      none := by
  have h := claim_C5_amended
    ⟨[(26, some 21), (19, some 20)], ["a.mp4", "b.mp4"], false, true⟩ 19 1 "b.mp4"
    { active_vid := some "a.mp4", p := some 5, live := [5], next_pid := 6,
      outputs := fun q => if q = 21 then PinLevel.high else PinLevel.low }
    (by decide) (by decide) (by decide)
  exact ⟨h.1, h.2.1, h.2.2⟩

/-- C6: pressing the pin of the already-active video with
`restart_on_press` off changes nothing observable: no exception, no
supervisor call, `_active_vid`, `_p` and the live process set unchanged,
and — since the indicator outputs were already exclusively correct for that
pin — every output keeps its value. -/
theorem claim_C6 (cfg : Config) (spawnOk : Bool) (pin i : Nat) (f : String)
    (s : PState)
    (h1 : tupleIndex cfg.in_pins pin = some i)
    (h2 : cfg.videos[i]? = some f)
    (h3 : s.active_vid = some f)
    (h4 : cfg.restart_on_press = false)
    (hinj : ∀ b1 ∈ cfg.gpio_pins, ∀ b2 ∈ cfg.gpio_pins,
      b1.2 ≠ none → b1.2 = b2.2 → b1.1 = b2.1)
    (hcorrect : ∀ b ∈ cfg.gpio_pins, ∀ o ∈ b.2.toList,
      (s.outputs o = PinLevel.high ↔ b.1 = pin)) :
    (switch_vid cfg spawnOk pin s).err = none ∧
    (switch_vid cfg spawnOk pin s).evs = [] ∧
    (switch_vid cfg spawnOk pin s).st.active_vid = s.active_vid ∧
    (switch_vid cfg spawnOk pin s).st.p = s.p ∧
    (switch_vid cfg spawnOk pin s).st.live = s.live ∧
    ∀ o : Nat, (switch_vid cfg spawnOk pin s).st.outputs o = s.outputs o := by
  rw [switch_vid_eq_noop h1 h2 h3 h4]
  refine ⟨rfl, rfl, rfl, rfl, rfl, ?_⟩
  intro o
  show setOutputs cfg.gpio_pins pin s.outputs o = s.outputs o
  by_cases hex : ∃ b ∈ cfg.gpio_pins, b.2 = some o
  · obtain ⟨⟨q, oo⟩, hbmem, hbo⟩ := hex
    simp only at hbo
    subst hbo
    have hexcl := @setOutputs_exclusive cfg.gpio_pins pin s.outputs hinj q o hbmem
    have hcor := hcorrect (q, some o) hbmem o (by simp)
    by_cases hq : q = pin
    · rw [hexcl.mpr hq, (hcor.mpr hq).symm]
    · have h1' : setOutputs cfg.gpio_pins pin s.outputs o ≠ PinLevel.high :=
        fun hh => hq (hexcl.mp hh)
      have h2' : s.outputs o ≠ PinLevel.high := fun hh => hq (hcor.mp hh)
      cases hs : setOutputs cfg.gpio_pins pin s.outputs o with
      | high => exact absurd hs h1'
      | low =>
          cases hs2 : s.outputs o with
          | high => exact absurd hs2 h2'
          | low => rfl
  · push_neg at hex
    exact setOutputs_not_out _ _ hex

/-- C6 witness: with `a.mp4` active on pin 26 (output 21 HIGH, output 20
LOW), pressing 26 again with `restart_on_press` off leaves the state and
outputs unchanged and issues no supervisor call. -/
theorem claim_C6_witness :
    (switch_vid ⟨[(26, some 21), (19, some 20)], ["a.mp4", "b.mp4"], false, true⟩
        true 26
        { active_vid := some "a.mp4", p := some 0, live := [0], next_pid := 1,
          outputs := fun q => if q = 21 then PinLevel.high else PinLevel.low }).err =
      none ∧
    (switch_vid ⟨[(26, some 21), (19, some 20)], ["a.mp4", "b.mp4"], false, true⟩
        true 26
        { active_vid := some "a.mp4", p := some 0, live := [0], next_pid := 1,
          outputs := fun q => if q = 21 then PinLevel.high else PinLevel.low }).evs =
      [] ∧
    (switch_vid ⟨[(26, some 21), (19, some 20)], ["a.mp4", "b.mp4"], false, true⟩
        true 26
        { active_vid := some "a.mp4", p := some 0, live := [0], next_pid := 1,
          outputs := fun q => if q = 21 then PinLevel.high else PinLevel.low }).st.p =
      some 0 := by
  have h := claim_C6
    ⟨[(26, some 21), (19, some 20)], ["a.mp4", "b.mp4"], false, true⟩ true 26 0 "a.mp4"
    { active_vid := some "a.mp4", p := some 0, live := [0], next_pid := 1,
      outputs := fun q => if q = 21 then PinLevel.high else PinLevel.low }
    (by decide) (by decide) (by decide) (by decide) (by decide) (by decide)
  exact ⟨h.1, h.2.1, h.2.2.2.1.trans rfl⟩

/-- C7: with looping disabled and a live player for the active video, the
next poll tick — with no new edge event delivered — detects the natural
exit, clears `_active_vid`, clears `_p`, reaps the process and deasserts
every configured indicator output. -/
theorem claim_C7 (cfg : Config) (s : PState) (pid : Nat)
    (hloop : cfg.loop = false) (hp : s.p = some pid) :
    (pollTick cfg s).active_vid = none ∧
    (pollTick cfg s).p = none ∧
    (pollTick cfg s).live = s.live.erase pid ∧
    ∀ q o : Nat, (q, some o) ∈ cfg.gpio_pins →
      (pollTick cfg s).outputs o = PinLevel.low := by
  have hpoll : pollTick cfg s =
      { s with live := s.live.erase pid, active_vid := none, p := none,
               outputs := resetLeds cfg.gpio_pins s.outputs } := by
    simp [pollTick, hloop, hp]
  rw [hpoll]
  refine ⟨rfl, rfl, rfl, ?_⟩
  intro q o hmem
  exact resetLeds_low _ _ ⟨(q, some o), hmem, rfl⟩

/-- C7 witness: `loop=false`, player 0 live on `a.mp4` with output 21 HIGH;
the poll tick resets everything. -/
theorem claim_C7_witness :
    (pollTick ⟨[(26, some 21)], ["a.mp4"], false, false⟩
        { active_vid := some "a.mp4", p := some 0, live := [0], next_pid := 1,
          outputs := fun q => if q = 21 then PinLevel.high else PinLevel.low }).active_vid =
      none ∧
    (pollTick ⟨[(26, some 21)], ["a.mp4"], false, false⟩
        { active_vid := some "a.mp4", p := some 0, live := [0], next_pid := 1,
          outputs := fun q => if q = 21 then PinLevel.high else PinLevel.low }).p =
      none ∧
    (pollTick ⟨[(26, some 21)], ["a.mp4"], false, false⟩
        { active_vid := some "a.mp4", p := some 0, live := [0], next_pid := 1,
          outputs := fun q => if q = 21 then PinLevel.high else PinLevel.low }).outputs 21 =
      PinLevel.low := by
  have h := claim_C7 ⟨[(26, some 21)], ["a.mp4"], false, false⟩
    { active_vid := some "a.mp4", p := some 0, live := [0], next_pid := 1,
      outputs := fun q => if q = 21 then PinLevel.high else PinLevel.low }
    0 (by decide) (by decide)
  exact ⟨h.1, h.2.1, h.2.2.2 26 21 (by decide)⟩

/-- C8 fails: the teardown sequence does not run exactly once per run. On a
run interrupted after three loop iterations, the `finally` block (line 204)
executes `__del__` once, and the interpreter's finalization of the instance
executes `__del__` a second time: the teardown body runs twice. -/
theorem claim_C8_counterexample :
    teardownCount (fullRun ExitPath.interrupt 3) = 2 ∧
    teardownCount (fullRun ExitPath.interrupt 3) ≠ 1 := by
  exact ⟨by decide, by decide⟩

/-- C8 amended: on every exit path of the run loop (operator interrupt or
unexpected error; the `while True` loop has no normal exit) and for every
number of completed iterations, the teardown sequence runs — but exactly
twice, not once: once from the `finally` block and once more when the
interpreter finalizes the instance, because the teardown routine is the
object's `__del__` finalizer. -/
theorem claim_C8_amended (e : ExitPath) (iters : Nat) :
    teardownCount (fullRun e iters) = 2 ∧ 1 ≤ teardownCount (fullRun e iters) := by
  have h : teardownCount (fullRun e iters) = 2 := by
    show ((List.replicate iters RunEv.loopIter ++ delEvents) ++ delEvents).count
          RunEv.gpioCleanup = 2
    rw [List.count_append, List.count_append, List.count_replicate]
    rfl
  exact ⟨h, by rw [h]; exact Nat.le_of_lt Nat.one_lt_two⟩

/-- C9 fails: not every access of the PlaybackState fields is performed
under `_mutex`. The table of access sites contains entries outside the
lock: the poll loop of `start` and the teardown both touch `_p` /
`_active_vid` without acquiring it. -/
theorem claim_C9_counterexample :
    ¬ (∀ site ∈ accessSites, site.underMutex = true) := by
  decide

/-- C9 amended: the edge-event transition (`switch_vid`, with its
`_kill_process` call) performs all its PlaybackState accesses while holding
`_mutex`, but the periodic poll of the run loop and the teardown access
`_p` / `_active_vid` without holding any lock. -/
theorem claim_C9_amended :
    (∀ site ∈ accessSites, site.actor = "switch_vid" → site.underMutex = true) ∧
    (∀ site ∈ accessSites, site.actor = "poll" ∨ site.actor = "del" →
      site.underMutex = false) := by
  decide

/-- C9 amended witness: the `switch_vid` write of `_active_vid` (line 142)
is under the mutex; the poll's write of `_active_vid` (line 200) is not. -/
theorem claim_C9_amended_witness :
    (⟨142, "switch_vid", "_active_vid", true, true⟩ : AccessSite).underMutex = true ∧
    (⟨200, "poll", "_active_vid", true, false⟩ : AccessSite).underMutex = false :=
  ⟨claim_C9_amended.1 _ (by decide) (by decide),
   claim_C9_amended.2 _ (by decide) (by decide)⟩

/-- C10: with more bound pins than videos, pressing a bound pin whose
ordinal position has no video raises `IndexError` from
`self.videos[...]` (line 127) — but only after the output-update loop has
already run, leaving exactly the pressed pin's output asserted (an
indicator lit for a pin with no video) while PlaybackState is untouched. -/
theorem claim_C10 (cfg : Config) (spawnOk : Bool) (pin i : Nat) (s : PState)
    (h1 : tupleIndex cfg.in_pins pin = some i)
    (h2 : cfg.videos.length ≤ i)
    (hinj : ∀ b1 ∈ cfg.gpio_pins, ∀ b2 ∈ cfg.gpio_pins,
      b1.2 ≠ none → b1.2 = b2.2 → b1.1 = b2.1) :
    (switch_vid cfg spawnOk pin s).err = some Err.indexError ∧
    (switch_vid cfg spawnOk pin s).st.active_vid = s.active_vid ∧
    (switch_vid cfg spawnOk pin s).st.p = s.p ∧
    (switch_vid cfg spawnOk pin s).st.live = s.live ∧
    ∀ q o : Nat, (q, some o) ∈ cfg.gpio_pins →
      ((switch_vid cfg spawnOk pin s).st.outputs o = PinLevel.high ↔ q = pin) := by
  have hget : cfg.videos[i]? = none := List.getElem?_eq_none h2
  rw [switch_vid_eq_novideo h1 hget]
  refine ⟨rfl, rfl, rfl, rfl, ?_⟩
  intro q o hmem
  exact @setOutputs_exclusive cfg.gpio_pins pin s.outputs hinj q o hmem

/-- C10 witness: two bound pins `26:21, 19:20` but a single video; pressing
pin 19 (position 1) raises `IndexError` with output 20 asserted and output
21 deasserted. -/
theorem claim_C10_witness :
    (switch_vid ⟨[(26, some 21), (19, some 20)], ["a.mp4"], false, true⟩
        true 19 initState).err = some Err.indexError ∧
    ((switch_vid ⟨[(26, some 21), (19, some 20)], ["a.mp4"], false, true⟩
        true 19 initState).st.outputs 20 = PinLevel.high ↔ (19 : Nat) = 19) ∧
    ((switch_vid ⟨[(26, some 21), (19, some 20)], ["a.mp4"], false, true⟩
        true 19 initState).st.outputs 21 = PinLevel.high ↔ (26 : Nat) = 19) := by
  have h := claim_C10 ⟨[(26, some 21), (19, some 20)], ["a.mp4"], false, true⟩
    true 19 1 initState (by decide) (by decide) (by decide)
  exact ⟨h.1, h.2.2.2.2 19 20 (by decide), h.2.2.2.2 26 21 (by decide)⟩

end Vidlooper
